import Mathlib

/-!
Verification of the browser-side dashboard client of the
windows-artifacts-parser repository.  The two source files
(static/js main script and web/correlation.js) are shallowly embedded
below: JavaScript values that can appear in a fetched JSON record are
modelled by `JsVal`, the rendered table body by `TableBody`, the status
banner together with its pending auto-hide timers by `BannerState`, and
each event handler of the source becomes a pure state-transition
function on these types.
-/

namespace WAP

/-- A JavaScript value as it can appear in a field of a fetched JSON
record: absent (undefined), null, a string, an integer number, or a
boolean. -/
inductive JsVal where
  | undef
  | null
  | str (s : String)
  | num (n : Int)
  | bool (b : Bool)
  deriving DecidableEq, Repr

/-- JavaScript truthiness of a `JsVal`. -/
def JsVal.truthy : JsVal → Bool
  | .undef => false
  | .null => false
  | .str s => !(s == "")
  | .num n => !(n == 0)
  | .bool b => b

/-- JavaScript string coercion, as performed by a textContent
assignment. -/
def JsVal.toText : JsVal → String
  | .undef => "undefined"
  | .null => "null"
  | .str s => s
  | .num n => toString n
  | .bool b => if b then "true" else "false"

/-- Whether a value is a string, undefined or null (the shapes the data
model of the spec allows for a record field). -/
def JsVal.isStrOrAbsent : JsVal → Bool
  | .undef => true
  | .null => true
  | .str _ => true
  | .num _ => false
  | .bool _ => false

/-- The source pattern `cell.textContent = field || two-quote-empty`:
a falsy field renders as the empty string, a truthy one as its string
coercion. -/
def renderCell (v : JsVal) : String :=
  if v.truthy then v.toText else ""

/-- One artifact record as consumed by fetchArtifacts: the eight fields
read by the row-rendering loop. -/
structure ArtifactRecord where
  id : JsVal
  artifact_type : JsVal
  name : JsVal
  path : JsVal
  timestamp : JsVal
  last_access : JsVal
  extra : JsVal
  details : JsVal
  deriving DecidableEq, Repr

/-- The eight fields of an artifact record, in the column order of the
rendering loop of fetchArtifacts. -/
def ArtifactRecord.fields (a : ArtifactRecord) : List JsVal :=
  [a.id, a.artifact_type, a.name, a.path, a.timestamp, a.last_access, a.extra, a.details]

/-- One correlation record as consumed by fetchCorrelations. -/
structure CorrelationRecord where
  timestamp : JsVal
  artifact_type : JsVal
  detail : JsVal
  anomaly : JsVal
  deriving DecidableEq, Repr

/-- The four fields of a correlation record, in the column order of the
rendering loop of fetchCorrelations. -/
def CorrelationRecord.fields (c : CorrelationRecord) : List JsVal :=
  [c.timestamp, c.artifact_type, c.detail, c.anomaly]

/-- The state of a table body element: either a list of data rows (each
row a list of cell texts) or a single raw placeholder row written via
innerHTML, carrying its colspan and message. -/
inductive TableBody where
  | rows (rs : List (List String))
  | placeholder (colspan : Nat) (msg : String)
  deriving DecidableEq, Repr

/-- The innerHTML written by showStatus: a p element with the severity
as its class and the message as its content. -/
def bannerHtml (severity message : String) : String :=
  "<p class=\"" ++ severity ++ "\">" ++ message ++ "</p>"

/-- The status banner: its innerHTML, its visibility, and the firing
times (in milliseconds) of all pending setTimeout auto-hide callbacks,
in scheduling order. -/
structure BannerState where
  content : String
  visible : Bool
  timers : List Nat
  deriving DecidableEq, Repr

/-- showStatus(message, severity) executed at time now: replaces the
banner content, shows the banner, and schedules one more hide callback
for now + 5000 ms.  It does not cancel previously scheduled
callbacks. -/
def showStatusAt (st : BannerState) (message severity : String) (now : Nat) : BannerState :=
  { content := bannerHtml severity message
    visible := true
    timers := st.timers ++ [now + 5000] }

/-- The setTimeout callback scheduled for time t firing: it hides the
banner (whatever its current content) and is removed from the pending
list.  If no callback is pending at t nothing happens. -/
def fireTimerAt (st : BannerState) (t : Nat) : BannerState :=
  if t ∈ st.timers then
    { st with visible := false, timers := st.timers.filter (fun x => !(x == t)) }
  else st

/-- The state of the artifacts dashboard page that the fetchArtifacts
handler can touch: the artifacts table body and the status banner. -/
structure ArtifactsPage where
  table : TableBody
  banner : BannerState
  deriving DecidableEq, Repr

/-- The two ways a fetch-and-parse of a record collection can settle in
a try/catch: the body parsed as a JSON array of records, or the fetch
or the JSON parse threw (network error or malformed body). -/
inductive FetchOutcome (α : Type) where
  | success (records : List α)
  | failure
  deriving DecidableEq, Repr

/-- The row built for one artifact by the forEach loop of
fetchArtifacts: eight cells, each rendered with the field-or-empty
pattern. -/
def renderArtifactRow (a : ArtifactRecord) : List String :=
  [renderCell a.id, renderCell a.artifact_type, renderCell a.name, renderCell a.path,
   renderCell a.timestamp, renderCell a.last_access, renderCell a.extra, renderCell a.details]

/-- The table body produced by the success path of fetchArtifacts:
cleared, then a colspan-8 placeholder for an empty collection,
otherwise one row per record in array order. -/
def renderArtifactsTable (records : List ArtifactRecord) : TableBody :=
  if records.length = 0 then TableBody.placeholder 8 "No artifacts found."
  else TableBody.rows (records.map renderArtifactRow)

/-- The row built for one correlation by the forEach loop of
fetchCorrelations. -/
def renderCorrelationRow (c : CorrelationRecord) : List String :=
  [renderCell c.timestamp, renderCell c.artifact_type, renderCell c.detail, renderCell c.anomaly]

/-- The table body produced by the success path of fetchCorrelations. -/
def renderCorrelationsTable (records : List CorrelationRecord) : TableBody :=
  if records.length = 0 then TableBody.placeholder 4 "No correlations found."
  else TableBody.rows (records.map renderCorrelationRow)

/-- One run of fetchArtifacts settling with the given outcome at time
t: on success the table is cleared and re-rendered (the banner is not
touched); on failure the table is not touched and the failure is
surfaced through showStatus. -/
def fetchArtifactsStep (st : ArtifactsPage) (outcome : FetchOutcome ArtifactRecord)
    (t : Nat) : ArtifactsPage :=
  match outcome with
  | .success records => { st with table := renderArtifactsTable records }
  | .failure => { st with banner := showStatusAt st.banner "Error fetching artifacts." "error" t }

/-- One run of fetchCorrelations settling with the given outcome: on
success the table is cleared and re-rendered; on failure the whole
table body is overwritten with a single colspan-4 error row. -/
def fetchCorrelationsStep (tbl : TableBody) (outcome : FetchOutcome CorrelationRecord) :
    TableBody :=
  match outcome with
  | .success records => renderCorrelationsTable records
  | .failure => TableBody.placeholder 4 "Error fetching correlations."

/-- The cell text the spec sentence of claim C1 prescribes: the field
value itself for a string field, the empty string for an absent
field. -/
def claimCellText : JsVal → String
  | .str s => s
  | _ => ""

/-- A record whose fields are all strings or absent, the shape the data
model of the spec gives to fetched records. -/
def recordWellFormed (a : ArtifactRecord) : Bool :=
  a.fields.all JsVal.isStrOrAbsent

/-- A correlation record whose fields are all strings or absent. -/
def corrWellFormed (c : CorrelationRecord) : Bool :=
  c.fields.all JsVal.isStrOrAbsent

/-- The double-quote character. -/
def dQuote : Char := Char.ofNat 34

/-- The single-quote character. -/
def sQuote : Char := Char.ofNat 39

/-- Membership in the quote character class of the filename pattern of
the export handlers (single or double quote). -/
def isQuoteChar (c : Char) : Bool := c == sQuote || c == dQuote

/-- The character class between the word filename and the equals sign
in the filename pattern: any character other than semicolon, equals
sign and newline. -/
def notSemiEqNl (c : Char) : Bool := !(c == ';' || c == '=' || c == '\n')

/-- The character class of the bare-token alternative of the filename
pattern: any character other than semicolon and newline. -/
def notSemiNl (c : Char) : Bool := !(c == ';' || c == '\n')

/-- Whether the first list of characters occurs verbatim at the start
of the second. -/
def startsWithChars : List Char → List Char → Bool
  | [], _ => true
  | _ :: _, [] => false
  | p :: ps, c :: cs => (p == c) && startsWithChars ps cs

/-- Whether the second list of characters occurs verbatim somewhere
inside the first (the indexOf test of the export handlers). -/
def hasSubstring : List Char → List Char → Bool
  | [], pat => pat.isEmpty
  | c :: cs, pat => startsWithChars pat (c :: cs) || hasSubstring cs pat

/-- The lazy search for the closing quote q in the quoted alternative
of the filename pattern: the dot of the pattern matches any character
except a line terminator, so the search fails at a newline or carriage
return and at the end of the input; otherwise it returns the content up
to the nearest closing quote and the remaining input. -/
def findClose (q : Char) : List Char → Option (List Char × List Char)
  | [] => none
  | c :: cs =>
    if c == q then some ([], cs)
    else if c == '\n' || c == '\r' then none
    else
      match findClose q cs with
      | some (content, rest) => some (c :: content, rest)
      | none => none

/-- Capture group one of the filename pattern, taken right after the
equals sign: the quoted alternative (quote, lazy content, same quote,
quotes included in the group) when the next character is a quote and a
closing quote exists, otherwise the greedy bare-token alternative. -/
def tokenAfterEq : List Char → List Char
  | [] => []
  | c :: rest =>
    if isQuoteChar c then
      match findClose c rest with
      | some (content, _) => c :: (content ++ [c])
      | none => (c :: rest).takeWhile notSemiNl
    else (c :: rest).takeWhile notSemiNl

/-- The word filename as a character list. -/
def filenameChars : List Char := ['f', 'i', 'l', 'e', 'n', 'a', 'm', 'e']

/-- The word attachment as a character list. -/
def attachmentChars : List Char := ['a', 't', 't', 'a', 'c', 'h', 'm', 'e', 'n', 't']

/-- The attempt to match the filename pattern at the current position,
assuming the literal word filename was already consumed: a greedy run
of characters outside the semicolon, equals-sign, newline class, then a
mandatory equals sign, then capture group one.  Because the greedy run
excludes the equals sign no backtracking can help, so the attempt is
deterministic. -/
def group1At (cs : List Char) : Option (List Char) :=
  match cs.dropWhile notSemiEqNl with
  | '=' :: rest => some (tokenAfterEq rest)
  | _ => none

/-- Execution of the filename pattern of the export handlers over an
input: the leftmost position where the literal word filename followed
by the rest of the pattern matches yields capture group one; if no
position matches the execution returns none. -/
def execFilenameRegex : List Char → Option (List Char)
  | [] => none
  | c :: cs =>
    if startsWithChars filenameChars (c :: cs) then
      match group1At ((c :: cs).drop 8) with
      | some g => some g
      | none => execFilenameRegex cs
    else execFilenameRegex cs

/-- The global quote-stripping replace applied to capture group one. -/
def stripQuotes (cs : List Char) : List Char :=
  cs.filter (fun c => !(isQuoteChar c))

/-- The filename selection of the export submit handlers: start from
the route default; when the header is present, truthy and contains the
word attachment, execute the filename pattern, and when it matches with
a truthy (non-empty) capture group one, use that group with all quote
characters stripped. -/
def extractFilename (defaultName : String) (disposition : Option String) : String :=
  match disposition with
  | none => defaultName
  | some d =>
    if d.toList ≠ [] ∧ hasSubstring d.toList attachmentChars = true then
      match execFilenameRegex d.toList with
      | some g => if g.isEmpty then defaultName else String.mk (stripQuotes g)
      | none => defaultName
    else defaultName

/-- Modelled from the claim wording of C2 alone, for comparison with
the code: the saved filename is the filename parameter parsed from the
header with the pattern filename=(quoted-or-bare-token), quotes
stripped, and the route default when the header is absent or the
pattern finds no usable parameter.  Unlike the code it does not require
the word attachment to occur in the header. -/
def specFilename (defaultName : String) (disposition : Option String) : String :=
  match disposition with
  | none => defaultName
  | some d =>
    match execFilenameRegex d.toList with
    | some g => if g.isEmpty then defaultName else String.mk (stripQuotes g)
    | none => defaultName

/-- The ways a report-export backend call can settle for the submit
handler: an ok response carrying an optional content-disposition
header, a non-ok response whose JSON body carries a message, or a
throw before or while reading the response (transport failure,
malformed body, blob failure). -/
inductive ExportOutcome where
  | ok (disposition : Option String)
  | errorBody (message : String)
  | transportError (message : String)
  deriving DecidableEq, Repr

/-- What a run of a report-export submit handler leaves behind: the
modal visibility, the form fields, the filename of a triggered
download when one happened, and the user notices shown (message and
severity, in order; alerts for the correlation variant). -/
structure SubmitResult where
  modalVisible : Bool
  form : List (String × String)
  download : Option String
  notices : List (String × String)
  deriving DecidableEq, Repr

/-- The finally block shared by both submit handlers: hide the modal
and reset the form, whatever the try and catch blocks left behind. -/
def modalFinally (r : SubmitResult) : SubmitResult :=
  { r with modalVisible := false, form := [] }

/-- The try and catch blocks of the artifact-report submit handler, for
a given snapshot of the form and a settled outcome; the modal is still
open and the form still filled when they finish. -/
def pdfSubmitArtifactsBody (form : List (String × String)) (outcome : ExportOutcome) :
    SubmitResult :=
  match outcome with
  | .ok disposition =>
    { modalVisible := true, form := form
      download := some (extractFilename "artifacts_report.pdf" disposition)
      notices := [("Generating PDF report...", "info"),
                  ("PDF report initiated. Check your downloads.", "info")] }
  | .errorBody m =>
    { modalVisible := true, form := form, download := none
      notices := [("Generating PDF report...", "info"),
                  ("Error generating PDF: " ++ m, "error")] }
  | .transportError m =>
    { modalVisible := true, form := form, download := none
      notices := [("Generating PDF report...", "info"),
                  ("Error exporting PDF: " ++ m, "error")] }

/-- The complete artifact-report submit handler: body then finally. -/
def pdfSubmitArtifacts (form : List (String × String)) (outcome : ExportOutcome) :
    SubmitResult :=
  modalFinally (pdfSubmitArtifactsBody form outcome)

/-- The try and catch blocks of the correlation-report submit handler;
notices here are alert dialogs. -/
def pdfSubmitCorrelationBody (form : List (String × String)) (outcome : ExportOutcome) :
    SubmitResult :=
  match outcome with
  | .ok disposition =>
    { modalVisible := true, form := form
      download := some (extractFilename "correlation_report.pdf" disposition)
      notices := [("Generating Correlation PDF report...", "alert")] }
  | .errorBody m =>
    { modalVisible := true, form := form, download := none
      notices := [("Generating Correlation PDF report...", "alert"),
                  ("Error generating PDF: " ++ m, "alert")] }
  | .transportError m =>
    { modalVisible := true, form := form, download := none
      notices := [("Generating Correlation PDF report...", "alert"),
                  ("Error exporting correlation PDF: " ++ m, "alert")] }

/-- The complete correlation-report submit handler: body then
finally. -/
def pdfSubmitCorrelation (form : List (String × String)) (outcome : ExportOutcome) :
    SubmitResult :=
  modalFinally (pdfSubmitCorrelationBody form outcome)

/-- The ways a command backend call can settle: a parsed JSON body
carrying a status and a message, or a throw of the fetch or of the JSON
parse (transport failure or malformed body). -/
inductive CmdOutcome where
  | response (status : String) (message : String)
  | transportError (message : String)
  deriving DecidableEq, Repr

/-- The observable actions a command click handler performs, in
order. -/
inductive Action where
  | callParseFolder (folderPath : String)
  | callParseShellbags
  | callClearDb
  | fetchArtifactsCall
  | showBanner (message : String) (severity : String)
  deriving DecidableEq, Repr

/-- How many artifact-table refreshes an action trace triggers. -/
def countRefreshes : List Action → Nat
  | [] => 0
  | Action.fetchArtifactsCall :: rest => countRefreshes rest + 1
  | _ :: rest => countRefreshes rest

/-- How many clear-database backend calls an action trace performs. -/
def countClearCalls : List Action → Nat
  | [] => 0
  | Action.callClearDb :: rest => countClearCalls rest + 1
  | _ :: rest => countClearCalls rest

/-- The parse-folder click handler: an empty path only shows an error
banner; otherwise a start banner, the backend call, and a branch on the
status field of the parsed body, any non-success status showing the
message behind the literal Error prefix. -/
def parseFolderClick (folderPath : String) (outcome : CmdOutcome) : List Action :=
  if folderPath.isEmpty then [Action.showBanner "Please enter a folder path." "error"]
  else
    Action.showBanner "Parsing folder started..." "info" ::
    Action.callParseFolder folderPath ::
    (match outcome with
     | .response s m =>
       if s = "success" then [Action.showBanner m "info"]
       else [Action.showBanner ("Error: " ++ m) "error"]
     | .transportError m => [Action.showBanner ("Error parsing folder: " ++ m) "error"])

/-- The parse-shellbags click handler. -/
def parseShellbagsClick (outcome : CmdOutcome) : List Action :=
  Action.showBanner "Parsing ShellBags started..." "info" ::
  Action.callParseShellbags ::
  (match outcome with
   | .response s m =>
     if s = "success" then [Action.showBanner m "info"]
     else [Action.showBanner ("Error: " ++ m) "error"]
   | .transportError m => [Action.showBanner ("Error parsing ShellBags: " ++ m) "error"])

/-- The clear-database click handler: a declined confirmation returns
before anything happens; a confirmed one shows a start banner, performs
the backend call, and on a success status shows the message and then
triggers one artifacts refresh; any other settlement shows an error
banner only. -/
def clearDbClick (confirmed : Bool) (outcome : CmdOutcome) : List Action :=
  if !confirmed then []
  else
    Action.showBanner "Clearing database..." "info" ::
    Action.callClearDb ::
    (match outcome with
     | .response s m =>
       if s = "success" then [Action.showBanner m "info", Action.fetchArtifactsCall]
       else [Action.showBanner ("Error: " ++ m) "error"]
     | .transportError m => [Action.showBanner ("Error clearing database: " ++ m) "error"])

/-- The theme-related page state: the data-theme attribute of the body,
the checked state of the toggle control, and the durable storage slot
under the theme key. -/
structure ThemeState where
  bodyTheme : Option String
  toggleChecked : Bool
  storage : Option String
  deriving DecidableEq, Repr

/-- setTheme(theme): sets the body attribute, persists the value to
durable storage, and synchronizes the toggle (checked exactly for
dark). -/
def setTheme (st : ThemeState) (theme : String) : ThemeState :=
  { bodyTheme := some theme
    toggleChecked := theme == "dark"
    storage := some theme }

/-- The saved-theme application at the end of page initialization: the
stored value is read and applied when truthy, otherwise the theme
defaults to light. -/
def applySavedTheme (st : ThemeState) : ThemeState :=
  match st.storage with
  | some t => if t.isEmpty then setTheme st "light" else setTheme st t
  | none => setTheme st "light"

/-- A freshly loaded page: no body attribute, toggle unchecked, and
whatever the durable storage held across the reload. -/
def freshPage (storage : Option String) : ThemeState :=
  { bodyTheme := none, toggleChecked := false, storage := storage }

/-- The initialization steps a page runs, named after what they do. -/
inductive InitStep where
  | initialFetch
  | bindModalHandlers
  | bindCommandHandlers
  | bindThemeToggle
  | applyStoredTheme
  deriving DecidableEq, Repr

/-- The initialization order of the artifacts dashboard script: the
initial fetchArtifacts call, then the modal listeners, then the command
listeners, then the theme toggle listener, and the saved theme applied
last. -/
def initSequenceArtifacts : List InitStep :=
  [InitStep.initialFetch, InitStep.bindModalHandlers, InitStep.bindCommandHandlers,
   InitStep.bindThemeToggle, InitStep.applyStoredTheme]

/-- The initialization order of the correlation dashboard script. -/
def initSequenceCorrelation : List InitStep :=
  [InitStep.initialFetch, InitStep.bindModalHandlers,
   InitStep.bindThemeToggle, InitStep.applyStoredTheme]

/-- The character list of a content-disposition header up to and
including the equals sign of its filename parameter: the word
attachment, a semicolon, a space, the word filename, the equals
sign. -/
def headerPre : List Char :=
  ['a', 't', 't', 'a', 'c', 'h', 'm', 'e', 'n', 't', ';', ' ',
   'f', 'i', 'l', 'e', 'n', 'a', 'm', 'e', '=']

/-- A banner with no content, hidden, and no pending timers. -/
def emptyBanner : BannerState :=
  { content := "", visible := false, timers := [] }

/-- A sample page state used to instantiate universally quantified
theorems. -/
def pageSample : ArtifactsPage :=
  { table := TableBody.rows [], banner := emptyBanner }

/-- A sample artifact record with a mix of present and absent
fields. -/
def artifactSampleA : ArtifactRecord :=
  { id := JsVal.str "1", artifact_type := JsVal.str "Prefetch", name := JsVal.str "CHROME.EXE"
    path := JsVal.undef, timestamp := JsVal.str "2024-01-01 10:00:00", last_access := JsVal.null
    extra := JsVal.str "", details := JsVal.undef }

/-- A sample correlation record. -/
def corrSampleA : CorrelationRecord :=
  { timestamp := JsVal.str "2024-01-01 10:00:00", artifact_type := JsVal.str "Prefetch"
    detail := JsVal.undef, anomaly := JsVal.str "None" }

/-- An artifact record whose id field is the number zero. -/
def zeroIdArtifact : ArtifactRecord :=
  { id := JsVal.num 0, artifact_type := JsVal.str "LNK", name := JsVal.str "doc.lnk"
    path := JsVal.str "C:/doc.lnk", timestamp := JsVal.str "2024-02-02", last_access := JsVal.undef
    extra := JsVal.undef, details := JsVal.undef }

/-- The same artifact record with the id field absent instead of
zero. -/
def absentIdArtifact : ArtifactRecord :=
  { id := JsVal.undef, artifact_type := JsVal.str "LNK", name := JsVal.str "doc.lnk"
    path := JsVal.str "C:/doc.lnk", timestamp := JsVal.str "2024-02-02", last_access := JsVal.undef
    extra := JsVal.undef, details := JsVal.undef }

/-- Claim C7: a successful refresh returning an empty collection
renders exactly one placeholder row spanning all columns, with column
span equal to the field count (8 for artifacts, 4 for correlations) and
no record rows. -/
theorem c7_empty_placeholder (st : ArtifactsPage) (t : Nat) (tbl : TableBody) :
    (fetchArtifactsStep st (FetchOutcome.success []) t).table
      = TableBody.placeholder 8 "No artifacts found."
  ∧ fetchCorrelationsStep tbl (FetchOutcome.success [])
      = TableBody.placeholder 4 "No correlations found." := by
  constructor
  · simp [fetchArtifactsStep, renderArtifactsTable]
  · simp [fetchCorrelationsStep, renderCorrelationsTable]

/-- Claim C10: the field-or-empty coalescing renders every falsy field
value as the empty string, so a record whose id is the number zero
renders exactly like one whose id is absent. -/
theorem c10_falsy_render :
    renderCell (JsVal.num 0) = ""
  ∧ renderCell (JsVal.bool false) = ""
  ∧ renderCell (JsVal.str "") = ""
  ∧ renderCell JsVal.null = ""
  ∧ renderCell JsVal.undef = ""
  ∧ renderCell (JsVal.num 7) = "7"
  ∧ (renderArtifactRow zeroIdArtifact).head? = some ""
  ∧ renderArtifactRow zeroIdArtifact = renderArtifactRow absentIdArtifact := by
  decide

/-- Claim C4: on every settlement of a report-export submission the
finally block hides the modal and resets the form to empty, for the
artifact and the correlation handler alike. -/
theorem c4_modal_always_closes (form : List (String × String)) (o : ExportOutcome) :
    (pdfSubmitArtifacts form o).modalVisible = false
  ∧ (pdfSubmitArtifacts form o).form = []
  ∧ (pdfSubmitCorrelation form o).modalVisible = false
  ∧ (pdfSubmitCorrelation form o).form = [] := by
  cases o <;>
    simp [pdfSubmitArtifacts, pdfSubmitCorrelation, modalFinally,
      pdfSubmitArtifactsBody, pdfSubmitCorrelationBody]

/-- Claim C3, counterexample: the claim says a failed correlations
refresh leaves the previously rendered rows in place while adding an
error row; on a concrete prior table with one data row, the code
replaces the whole table body with the single error row, so the prior
row is gone. -/
theorem c3_counterexample :
    fetchCorrelationsStep
        (TableBody.rows [["2024-01-01", "Prefetch", "run", "None"]]) FetchOutcome.failure
      = TableBody.placeholder 4 "Error fetching correlations."
  ∧ TableBody.placeholder 4 "Error fetching correlations."
      ≠ TableBody.rows [["2024-01-01", "Prefetch", "run", "None"],
          ["Error fetching correlations.", "", "", ""]]
  ∧ ∀ rs, TableBody.placeholder 4 "Error fetching correlations." ≠ TableBody.rows rs := by
  refine ⟨rfl, by decide, fun rs h => TableBody.noConfusion h⟩

/-- Claim C3, amended: on a failed refresh the Correlations variant
replaces the whole table body with a single in-table error row
(discarding any previous rows), while the Artifacts variant leaves its
table body unchanged and surfaces the failure through the status
banner. -/
theorem c3_failure_asymmetry (tbl : TableBody) (st : ArtifactsPage) (t : Nat) :
    fetchCorrelationsStep tbl FetchOutcome.failure
      = TableBody.placeholder 4 "Error fetching correlations."
  ∧ (fetchArtifactsStep st FetchOutcome.failure t).table = st.table
  ∧ (fetchArtifactsStep st FetchOutcome.failure t).banner.content
      = bannerHtml "error" "Error fetching artifacts."
  ∧ (fetchArtifactsStep st FetchOutcome.failure t).banner.visible = true := by
  refine ⟨rfl, rfl, rfl, rfl⟩

/-- Claim C5, counterexample: for the concrete body with status failure
and message boom, the displayed error text is the string Error: boom,
not the message boom verbatim, so the claim as stated fails. -/
theorem c5_counterexample :
    parseFolderClick "C:/evidence" (CmdOutcome.response "failure" "boom")
      = [Action.showBanner "Parsing folder started..." "info",
         Action.callParseFolder "C:/evidence",
         Action.showBanner "Error: boom" "error"]
  ∧ ("Error: boom" : String) ≠ "boom" := by
  constructor
  · decide
  · decide

/-- Claim C5, amended: each handler receiving a structured status and
message body branches solely on the status field; the literal string
success drives the success path showing the message with info
severity, and any other status drives the failure path displaying the
literal prefix Error: followed by the message verbatim. -/
theorem c5_status_branching (p s m : String) (hp : p.isEmpty = false) (hs : s ≠ "success") :
    parseFolderClick p (CmdOutcome.response "success" m)
      = [Action.showBanner "Parsing folder started..." "info",
         Action.callParseFolder p, Action.showBanner m "info"]
  ∧ parseFolderClick p (CmdOutcome.response s m)
      = [Action.showBanner "Parsing folder started..." "info",
         Action.callParseFolder p, Action.showBanner ("Error: " ++ m) "error"]
  ∧ parseShellbagsClick (CmdOutcome.response "success" m)
      = [Action.showBanner "Parsing ShellBags started..." "info",
         Action.callParseShellbags, Action.showBanner m "info"]
  ∧ parseShellbagsClick (CmdOutcome.response s m)
      = [Action.showBanner "Parsing ShellBags started..." "info",
         Action.callParseShellbags, Action.showBanner ("Error: " ++ m) "error"]
  ∧ clearDbClick true (CmdOutcome.response "success" m)
      = [Action.showBanner "Clearing database..." "info",
         Action.callClearDb, Action.showBanner m "info", Action.fetchArtifactsCall]
  ∧ clearDbClick true (CmdOutcome.response s m)
      = [Action.showBanner "Clearing database..." "info",
         Action.callClearDb, Action.showBanner ("Error: " ++ m) "error"] := by
  refine ⟨?_, ?_, ?_, ?_, ?_, ?_⟩ <;>
    simp [parseFolderClick, parseShellbagsClick, clearDbClick, hp, hs]

/-- Witness for the amended claim C5 at a concrete path, status and
message. -/
theorem c5_status_branching_witness :
    parseFolderClick "C:/evidence" (CmdOutcome.response "success" "Parsed 3 files")
      = [Action.showBanner "Parsing folder started..." "info",
         Action.callParseFolder "C:/evidence", Action.showBanner "Parsed 3 files" "info"]
  ∧ parseFolderClick "C:/evidence" (CmdOutcome.response "failed" "Parsed 3 files")
      = [Action.showBanner "Parsing folder started..." "info",
         Action.callParseFolder "C:/evidence",
         Action.showBanner ("Error: " ++ "Parsed 3 files") "error"]
  ∧ parseShellbagsClick (CmdOutcome.response "success" "Parsed 3 files")
      = [Action.showBanner "Parsing ShellBags started..." "info",
         Action.callParseShellbags, Action.showBanner "Parsed 3 files" "info"]
  ∧ parseShellbagsClick (CmdOutcome.response "failed" "Parsed 3 files")
      = [Action.showBanner "Parsing ShellBags started..." "info",
         Action.callParseShellbags, Action.showBanner ("Error: " ++ "Parsed 3 files") "error"]
  ∧ clearDbClick true (CmdOutcome.response "success" "Parsed 3 files")
      = [Action.showBanner "Clearing database..." "info",
         Action.callClearDb, Action.showBanner "Parsed 3 files" "info",
         Action.fetchArtifactsCall]
  ∧ clearDbClick true (CmdOutcome.response "failed" "Parsed 3 files")
      = [Action.showBanner "Clearing database..." "info",
         Action.callClearDb, Action.showBanner ("Error: " ++ "Parsed 3 files") "error"] :=
  c5_status_branching "C:/evidence" "failed" "Parsed 3 files" (by decide) (by decide)

/-- Claim C6: a declined confirmation performs no action at all (no
backend call, no banner change, no table change); a confirmed call with
a success status triggers exactly one artifacts refresh; a confirmed
call that fails triggers none. -/
theorem c6_clear_dataset (o : CmdOutcome) (s m : String) (hs : s ≠ "success") :
    clearDbClick false o = []
  ∧ countClearCalls (clearDbClick false o) = 0
  ∧ countRefreshes (clearDbClick true (CmdOutcome.response "success" m)) = 1
  ∧ countRefreshes (clearDbClick true (CmdOutcome.response s m)) = 0
  ∧ countRefreshes (clearDbClick true (CmdOutcome.transportError m)) = 0 := by
  refine ⟨rfl, rfl, rfl, ?_, rfl⟩
  simp [clearDbClick, hs, countRefreshes]

/-- Witness for claim C6 at a concrete outcome, status and message. -/
theorem c6_clear_dataset_witness :
    clearDbClick false (CmdOutcome.response "success" "Database cleared") = []
  ∧ countClearCalls (clearDbClick false (CmdOutcome.response "success" "Database cleared")) = 0
  ∧ countRefreshes (clearDbClick true (CmdOutcome.response "success" "Database cleared")) = 1
  ∧ countRefreshes (clearDbClick true (CmdOutcome.response "error" "Database cleared")) = 0
  ∧ countRefreshes (clearDbClick true (CmdOutcome.transportError "Database cleared")) = 0 :=
  c6_clear_dataset (CmdOutcome.response "success" "Database cleared")
    "error" "Database cleared" (by decide)

/-- Claim C9: two showStatus calls less than five seconds apart leave
the banner showing the second message, do not cancel the timer of the
first call (both pending timers remain), and the callback of the first
call hides the banner at the first time plus five seconds, which is no
later than the second time plus five seconds. -/
theorem c9_banner_timer (st : BannerState) (t0 t1 : Nat) (m1 m2 : String)
    (hE : st.timers = []) (h0 : t0 ≤ t1) (h1 : t1 < t0 + 5000) :
    (showStatusAt (showStatusAt st m1 "error" t0) m2 "info" t1).content = bannerHtml "info" m2
  ∧ (showStatusAt (showStatusAt st m1 "error" t0) m2 "info" t1).visible = true
  ∧ (showStatusAt (showStatusAt st m1 "error" t0) m2 "info" t1).timers = [t0 + 5000, t1 + 5000]
  ∧ (fireTimerAt (showStatusAt (showStatusAt st m1 "error" t0) m2 "info" t1)
      (t0 + 5000)).visible = false
  ∧ (fireTimerAt (showStatusAt (showStatusAt st m1 "error" t0) m2 "info" t1)
      (t0 + 5000)).content = bannerHtml "info" m2
  ∧ t0 + 5000 ≤ t1 + 5000 := by
  refine ⟨rfl, rfl, by simp [showStatusAt, hE], ?_, ?_, by omega⟩
  · simp [fireTimerAt, showStatusAt, hE]
  · simp [fireTimerAt, showStatusAt, hE]

/-- Witness for claim C9: first call at zero, second at three
seconds. -/
theorem c9_banner_timer_witness :
    (showStatusAt (showStatusAt emptyBanner "fail" "error" 0) "done" "info" 3000).content
      = bannerHtml "info" "done"
  ∧ (showStatusAt (showStatusAt emptyBanner "fail" "error" 0) "done" "info" 3000).visible = true
  ∧ (showStatusAt (showStatusAt emptyBanner "fail" "error" 0) "done" "info" 3000).timers
      = [0 + 5000, 3000 + 5000]
  ∧ (fireTimerAt (showStatusAt (showStatusAt emptyBanner "fail" "error" 0) "done" "info" 3000)
      (0 + 5000)).visible = false
  ∧ (fireTimerAt (showStatusAt (showStatusAt emptyBanner "fail" "error" 0) "done" "info" 3000)
      (0 + 5000)).content = bannerHtml "info" "done"
  ∧ 0 + 5000 ≤ 3000 + 5000 :=
  c9_banner_timer emptyBanner 0 3000 "fail" "done" rfl (by decide) (by decide)

/-- Claim C8, counterexample: in both page scripts the first
initialization step is the initial table fetch, not the application of
the stored theme, which is the last step; so the stored value is not
applied before any other initialization. -/
theorem c8_counterexample :
    initSequenceArtifacts.head? = some InitStep.initialFetch
  ∧ initSequenceCorrelation.head? = some InitStep.initialFetch
  ∧ InitStep.initialFetch ≠ InitStep.applyStoredTheme
  ∧ initSequenceArtifacts.getLast? = some InitStep.applyStoredTheme
  ∧ initSequenceCorrelation.getLast? = some InitStep.applyStoredTheme := by
  decide

/-- Claim C8, amended: setTheme persists the chosen value durably; on
every page load the stored value is read and applied as the final
initialization step (after the initial fetch is issued and the handlers
are bound); with nothing stored the theme defaults to light; and
setting dark followed by a simulated reload reads back and applies
dark. -/
theorem c8_theme_persistence (st : ThemeState) (h : st.storage = none) :
    (setTheme st "dark").storage = some "dark"
  ∧ (applySavedTheme (freshPage (setTheme st "dark").storage)).bodyTheme = some "dark"
  ∧ (applySavedTheme (freshPage (setTheme st "dark").storage)).toggleChecked = true
  ∧ (applySavedTheme (freshPage (setTheme st "light").storage)).bodyTheme = some "light"
  ∧ (applySavedTheme st).bodyTheme = some "light"
  ∧ (applySavedTheme st).toggleChecked = false
  ∧ initSequenceArtifacts.getLast? = some InitStep.applyStoredTheme
  ∧ initSequenceCorrelation.getLast? = some InitStep.applyStoredTheme := by
  refine ⟨rfl, rfl, rfl, rfl, ?_, ?_, by decide, by decide⟩
  · simp [applySavedTheme, h, setTheme]
  · simp [applySavedTheme, h, setTheme]

/-- Witness for the amended claim C8 on a fresh page with empty
storage. -/
theorem c8_theme_persistence_witness :
    (setTheme (freshPage none) "dark").storage = some "dark"
  ∧ (applySavedTheme (freshPage (setTheme (freshPage none) "dark").storage)).bodyTheme
      = some "dark"
  ∧ (applySavedTheme (freshPage (setTheme (freshPage none) "dark").storage)).toggleChecked
      = true
  ∧ (applySavedTheme (freshPage (setTheme (freshPage none) "light").storage)).bodyTheme
      = some "light"
  ∧ (applySavedTheme (freshPage none)).bodyTheme = some "light"
  ∧ (applySavedTheme (freshPage none)).toggleChecked = false
  ∧ initSequenceArtifacts.getLast? = some InitStep.applyStoredTheme
  ∧ initSequenceCorrelation.getLast? = some InitStep.applyStoredTheme :=
  c8_theme_persistence (freshPage none) rfl

/-- A cell rendered by the code equals the cell text the spec
prescribes whenever the field is a string, undefined or null. -/
theorem renderCell_eq_claim (v : JsVal) (h : JsVal.isStrOrAbsent v = true) :
    renderCell v = claimCellText v := by
  cases v with
  | str s =>
    by_cases hs : s = ""
    · subst hs; rfl
    · simp [renderCell, JsVal.truthy, JsVal.toText, claimCellText, hs]
  | undef => rfl
  | null => rfl
  | num n => simp [JsVal.isStrOrAbsent] at h
  | bool b => simp [JsVal.isStrOrAbsent] at h

/-- A well-formed artifact record renders to exactly the row the spec
prescribes. -/
theorem renderArtifactRow_eq_claim (a : ArtifactRecord) (h : recordWellFormed a = true) :
    renderArtifactRow a = (ArtifactRecord.fields a).map claimCellText := by
  simp only [recordWellFormed, ArtifactRecord.fields, List.all_cons, List.all_nil,
    Bool.and_true, Bool.and_eq_true] at h
  obtain ⟨h1, h2, h3, h4, h5, h6, h7, h8⟩ := h
  simp only [renderArtifactRow, ArtifactRecord.fields, List.map_cons, List.map_nil]
  rw [renderCell_eq_claim _ h1, renderCell_eq_claim _ h2, renderCell_eq_claim _ h3,
    renderCell_eq_claim _ h4, renderCell_eq_claim _ h5, renderCell_eq_claim _ h6,
    renderCell_eq_claim _ h7, renderCell_eq_claim _ h8]

/-- A well-formed correlation record renders to exactly the row the
spec prescribes. -/
theorem renderCorrelationRow_eq_claim (c : CorrelationRecord) (h : corrWellFormed c = true) :
    renderCorrelationRow c = (CorrelationRecord.fields c).map claimCellText := by
  simp only [corrWellFormed, CorrelationRecord.fields, List.all_cons, List.all_nil,
    Bool.and_true, Bool.and_eq_true] at h
  obtain ⟨h1, h2, h3, h4⟩ := h
  simp only [renderCorrelationRow, CorrelationRecord.fields, List.map_cons, List.map_nil]
  rw [renderCell_eq_claim _ h1, renderCell_eq_claim _ h2, renderCell_eq_claim _ h3,
    renderCell_eq_claim _ h4]

/-- Claim C1: a successful refresh with a non-empty collection of
records whose fields are strings or absent clears the table and renders
exactly one row per record, in array order, with each cell equal to the
field value or the empty string for an absent field; the result does
not depend on the previous table content.  Both the artifacts and the
correlations variant are covered. -/
theorem c1_refresh_renders (records : List ArtifactRecord) (crecs : List CorrelationRecord)
    (st : ArtifactsPage) (tbl : TableBody) (t : Nat)
    (h1 : records ≠ []) (h2 : records.all recordWellFormed = true)
    (h3 : crecs ≠ []) (h4 : crecs.all corrWellFormed = true) :
    (fetchArtifactsStep st (FetchOutcome.success records) t).table
      = TableBody.rows (records.map (fun a => (ArtifactRecord.fields a).map claimCellText))
  ∧ fetchCorrelationsStep tbl (FetchOutcome.success crecs)
      = TableBody.rows (crecs.map (fun c => (CorrelationRecord.fields c).map claimCellText)) := by
  constructor
  · show renderArtifactsTable records = _
    rw [renderArtifactsTable, if_neg (by simpa using h1)]
    exact congrArg TableBody.rows
      (List.map_congr_left fun a ha =>
        renderArtifactRow_eq_claim a (List.all_eq_true.mp h2 a ha))
  · show renderCorrelationsTable crecs = _
    rw [renderCorrelationsTable, if_neg (by simpa using h3)]
    exact congrArg TableBody.rows
      (List.map_congr_left fun c hc =>
        renderCorrelationRow_eq_claim c (List.all_eq_true.mp h4 c hc))

/-- Witness for claim C1 on a concrete one-record collection for each
table. -/
theorem c1_refresh_renders_witness :
    (fetchArtifactsStep pageSample (FetchOutcome.success [artifactSampleA]) 0).table
      = TableBody.rows
          ([artifactSampleA].map (fun a => (ArtifactRecord.fields a).map claimCellText))
  ∧ fetchCorrelationsStep (TableBody.rows []) (FetchOutcome.success [corrSampleA])
      = TableBody.rows
          ([corrSampleA].map (fun c => (CorrelationRecord.fields c).map claimCellText)) :=
  c1_refresh_renders [artifactSampleA] [corrSampleA] pageSample (TableBody.rows []) 0
    (by decide) (by decide) (by decide) (by decide)

/-- Claim C2, counterexample: for the concrete header value
inline; filename=(quoted custom.pdf) the filename parameter parses to
custom.pdf under the claim reading, but the code saves the route
default because the header does not contain the word attachment. -/
theorem c2_counterexample :
    specFilename "artifacts_report.pdf" (some "inline; filename=\"custom.pdf\"") = "custom.pdf"
  ∧ extractFilename "artifacts_report.pdf" (some "inline; filename=\"custom.pdf\"")
      = "artifacts_report.pdf"
  ∧ ("custom.pdf" : String) ≠ "artifacts_report.pdf" := by
  refine ⟨by decide, by decide, by decide⟩

/-- Unfolding extractFilename over an explicitly built string. -/
theorem extractFilename_mk (defaultName : String) (l : List Char) :
    extractFilename defaultName (some (String.mk l))
      = if l ≠ [] ∧ hasSubstring l attachmentChars = true then
          match execFilenameRegex l with
          | some g => if g.isEmpty then defaultName else String.mk (stripQuotes g)
          | none => defaultName
        else defaultName := rfl

/-- The filename pattern executed on an input starting with the header
beginning (attachment; filename=) matches at the position of the word
filename and yields capture group one taken right after the equals
sign. -/
theorem exec_header (rest : List Char) :
    execFilenameRegex (headerPre ++ rest) = some (tokenAfterEq rest) := rfl

/-- The lazy closing-quote search over a name free of double quotes and
line terminators finds exactly the appended closing quote. -/
theorem findClose_plain (name : List Char)
    (h : ∀ c ∈ name, c ≠ dQuote ∧ c ≠ '\n' ∧ c ≠ '\r') :
    findClose dQuote (name ++ [dQuote]) = some (name, []) := by
  induction name with
  | nil => simp [findClose]
  | cons c cs ih =>
    obtain ⟨h1, h2, h3⟩ := h c (List.mem_cons_self c cs)
    have ih2 := ih (fun x hx => h x (List.mem_cons_of_mem c hx))
    simp [findClose, h1, h2, h3, ih2]

/-- Stripping quotes from a quoted group whose content has no quote
characters returns exactly the content. -/
theorem stripQuotes_plain (name : List Char)
    (h : ∀ c ∈ name, c ≠ sQuote ∧ c ≠ dQuote) :
    stripQuotes (dQuote :: (name ++ [dQuote])) = name := by
  have hd : isQuoteChar dQuote = true := by decide
  simp only [stripQuotes, List.filter_cons, List.filter_append, hd,
    Bool.not_true, List.filter_nil]
  have hname : name.filter (fun c => !(isQuoteChar c)) = name := by
    refine List.filter_eq_self.mpr (fun c hc => ?_)
    obtain ⟨h1, h2⟩ := h c hc
    simp [isQuoteChar, h1, h2]
  simp [hname]

/-- Claim C2, amended: on a successful export response the saved
filename is the filename parameter parsed from the content-disposition
header (quoted or bare token, quotes stripped) provided the header also
contains the word attachment; when the header is absent, lacks the word
attachment, or the pattern finds no usable parameter, the saved
filename is the route default (artifacts_report.pdf for the artifact
report, correlation_report.pdf for the correlation report).  The first
conjunct covers every quoted name free of quotes and line
terminators. -/
theorem c2_filename_selection (name : List Char) (defaultName : String)
    (hplain : ∀ c ∈ name, c ≠ sQuote ∧ c ≠ dQuote ∧ c ≠ '\n' ∧ c ≠ '\r') :
    extractFilename defaultName
        (some (String.mk (headerPre ++ (dQuote :: (name ++ [dQuote]))))) = String.mk name
  ∧ extractFilename defaultName none = defaultName
  ∧ extractFilename "artifacts_report.pdf"
      (some "attachment; filename=\"custom.pdf\"") = "custom.pdf"
  ∧ extractFilename "artifacts_report.pdf"
      (some "attachment; filename=custom.pdf") = "custom.pdf"
  ∧ extractFilename "artifacts_report.pdf"
      (some "inline; filename=\"custom.pdf\"") = "artifacts_report.pdf"
  ∧ extractFilename "correlation_report.pdf"
      (some "attachment; filename=\"custom.pdf\"") = "custom.pdf"
  ∧ (∀ form d, (pdfSubmitArtifacts form (ExportOutcome.ok d)).download
      = some (extractFilename "artifacts_report.pdf" d))
  ∧ (∀ form d, (pdfSubmitCorrelation form (ExportOutcome.ok d)).download
      = some (extractFilename "correlation_report.pdf" d)) := by
  refine ⟨?_, rfl, by decide, by decide, by decide, by decide,
    fun form d => rfl, fun form d => rfl⟩
  rw [extractFilename_mk]
  rw [if_pos (⟨by simp [headerPre], rfl⟩ :
    headerPre ++ (dQuote :: (name ++ [dQuote])) ≠ []
    ∧ hasSubstring (headerPre ++ (dQuote :: (name ++ [dQuote]))) attachmentChars = true)]
  rw [exec_header]
  have htok : tokenAfterEq (dQuote :: (name ++ [dQuote])) = dQuote :: (name ++ [dQuote]) := by
    have hq : isQuoteChar dQuote = true := by decide
    have hfind := findClose_plain name
      (fun c hc => ⟨(hplain c hc).2.1, (hplain c hc).2.2.1, (hplain c hc).2.2.2⟩)
    simp [tokenAfterEq, hq, hfind]
  rw [htok]
  have hne : (dQuote :: (name ++ [dQuote])).isEmpty = false := rfl
  simp only [hne, Bool.false_eq_true, if_false]
  exact congrArg String.mk
    (stripQuotes_plain name (fun c hc => ⟨(hplain c hc).1, (hplain c hc).2.1⟩))

/-- Witness for the amended claim C2 at the concrete quoted name
custom.pdf. -/
theorem c2_filename_selection_witness :
    extractFilename "artifacts_report.pdf"
        (some (String.mk (headerPre
          ++ (dQuote :: ((['c', 'u', 's', 't', 'o', 'm', '.', 'p', 'd', 'f']) ++ [dQuote])))))
      = String.mk ['c', 'u', 's', 't', 'o', 'm', '.', 'p', 'd', 'f']
  ∧ extractFilename "artifacts_report.pdf" none = "artifacts_report.pdf"
  ∧ extractFilename "artifacts_report.pdf"
      (some "attachment; filename=\"custom.pdf\"") = "custom.pdf"
  ∧ extractFilename "artifacts_report.pdf"
      (some "attachment; filename=custom.pdf") = "custom.pdf"
  ∧ extractFilename "artifacts_report.pdf"
      (some "inline; filename=\"custom.pdf\"") = "artifacts_report.pdf"
  ∧ extractFilename "correlation_report.pdf"
      (some "attachment; filename=\"custom.pdf\"") = "custom.pdf"
  ∧ (∀ form d, (pdfSubmitArtifacts form (ExportOutcome.ok d)).download
      = some (extractFilename "artifacts_report.pdf" d))
  ∧ (∀ form d, (pdfSubmitCorrelation form (ExportOutcome.ok d)).download
      = some (extractFilename "correlation_report.pdf" d)) :=
  c2_filename_selection ['c', 'u', 's', 't', 'o', 'm', '.', 'p', 'd', 'f']
    "artifacts_report.pdf" (by decide)

end WAP
